import Mathlib

/-!
Shallow embedding of the hospital-unit / regulation-queue ETL pipelines
(`transform_unidades.py`, `etl.py`, `scripts/main.py`, `scripts/transform_unidades.py`).

Tabular data is modelled as a `Frame` (a header of column names plus rows of
cells); a cell is a missing value (pandas `NaN`), a string, a rational number
(standing for a parsed float), a boolean, or a calendar date.  The Python
string methods used by the code (`strip`, `lower`, `title`, `split`,
whitespace handling) and the pandas coercions (`to_numeric`, `to_datetime`,
`astype(str)`, `drop_duplicates`) are modelled as total executable functions.
-/

namespace HospitalETL

/-- Characters Python's `str.strip()` removes at both ends (ASCII whitespace:
space, tab, newline, carriage return, vertical tab, form feed). -/
def pyIsSpace (c : Char) : Bool :=
  [32, 9, 10, 13, 11, 12].contains c.toNat

/-- Upper/lower case pairs handled by the model of Python's case functions:
the ASCII letters plus the accented letters that occur in the source's token
sets and test names (Python's `str.lower`/`str.upper` are full Unicode; only
these pairs are exercised by the repository's data). -/
def lowerPairs : List (Char × Char) :=
  [('A', 'a'), ('B', 'b'), ('C', 'c'), ('D', 'd'), ('E', 'e'), ('F', 'f'),
   ('G', 'g'), ('H', 'h'), ('I', 'i'), ('J', 'j'), ('K', 'k'), ('L', 'l'),
   ('M', 'm'), ('N', 'n'), ('O', 'o'), ('P', 'p'), ('Q', 'q'), ('R', 'r'),
   ('S', 's'), ('T', 't'), ('U', 'u'), ('V', 'v'), ('W', 'w'), ('X', 'x'),
   ('Y', 'y'), ('Z', 'z'),
   ('Á', 'á'), ('Â', 'â'), ('Ã', 'ã'), ('À', 'à'), ('Ç', 'ç'), ('É', 'é'),
   ('Ê', 'ê'), ('Í', 'í'), ('Ó', 'ó'), ('Ô', 'ô'), ('Õ', 'õ'), ('Ú', 'ú')]

/-- Model of Python's `str.lower` on a single character. -/
def pyLower (c : Char) : Char :=
  ((lowerPairs.find? (fun p => p.1 == c)).map Prod.snd).getD c

/-- Model of Python's `str.upper` on a single character. -/
def pyUpper (c : Char) : Char :=
  ((lowerPairs.find? (fun p => p.2 == c)).map Prod.fst).getD c

/-- A character is cased (participates in `str.title` word detection) iff it
appears in the case table. -/
def pyIsCased (c : Char) : Bool :=
  (lowerPairs.find? (fun p => p.1 == c || p.2 == c)).isSome

def strOfChars (cs : List Char) : String := ⟨cs⟩

/-- `str.strip()` on a character list: drop whitespace from both ends. -/
def pyStripList (cs : List Char) : List Char :=
  ((cs.dropWhile pyIsSpace).reverse.dropWhile pyIsSpace).reverse

/-- Model of Python's `str.strip()`. -/
def pyStrip (s : String) : String := ⟨pyStripList s.data⟩

/-- Model of Python's `str.lower()`. -/
def pyLowerStr (s : String) : String := ⟨s.data.map pyLower⟩

/-- Core of `str.title()`: a cased character is uppercased when the previous
character was not cased, lowercased otherwise. -/
def pyTitleGo : Bool → List Char → List Char
  | _, [] => []
  | prev, c :: cs =>
    if pyIsCased c then
      (if prev then pyLower c else pyUpper c) :: pyTitleGo true cs
    else
      c :: pyTitleGo false cs

/-- Model of Python's `str.title()`. -/
def pyTitle (s : String) : String := ⟨pyTitleGo false s.data⟩

/-- Core of Python's no-argument `str.split()`: split on runs of whitespace,
discarding empty fragments.  `cur` holds the current token reversed. -/
def splitWsGo (cur : List Char) : List Char → List (List Char)
  | [] => if cur.isEmpty then [] else [cur.reverse]
  | c :: cs =>
    if pyIsSpace c then
      if cur.isEmpty then splitWsGo [] cs else cur.reverse :: splitWsGo [] cs
    else
      splitWsGo (c :: cur) cs

/-- Model of Python's `str.split()` (no separator argument). -/
def splitWs (cs : List Char) : List (List Char) := splitWsGo [] cs

/-- A cell of a pandas frame: missing (`NaN`), a string, a number (rationals
stand for floats), a boolean, or a calendar date. -/
inductive Cell where
  | missing
  | str (s : String)
  | num (q : Rat)
  | boolv (b : Bool)
  | date (y m d : Nat)
deriving DecidableEq, Repr

/-- Model of Python's `str(v)` / pandas `astype(str)` on a cell.  `NaN`
stringifies to `"nan"`, `True`/`False` as in Python; the numeric and date
representations are simplified (claims never stringify those cases). -/
def pyStr : Cell → String
  | Cell.missing => "nan"
  | Cell.str s => s
  | Cell.num q =>
      if q.den = 1 then toString q.num ++ ".0"
      else toString q.num ++ "/" ++ toString q.den
  | Cell.boolv b => if b then "True" else "False"
  | Cell.date y m d => toString y ++ "-" ++ toString m ++ "-" ++ toString d

/-- Accepted truthy tokens (`transform_unidades.py` line 39). -/
def trueTokens : List String := ["1", "1.0", "true", "t", "sim", "s", "yes", "y"]

/-- Accepted falsy tokens (`transform_unidades.py` line 41). -/
def falseTokens : List String := ["0", "0.0", "false", "f", "nao", "não", "n", "no"]

/-- `to_bool` from `transform_unidades.py` lines 35-43 (identical to
`para_booleano` in `scripts/transform_unidades.py` lines 49-63): `None`
(missing) for NaN / blank / `"nan"`, otherwise a token-set lookup on the
stripped lowercased string form. -/
def to_bool (v : Cell) : Cell :=
  if v == Cell.missing || pyStrip (pyStr v) == "" || pyLowerStr (pyStr v) == "nan" then
    Cell.missing
  else
    let s := pyLowerStr (pyStrip (pyStr v))
    if trueTokens.contains s then Cell.boolv true
    else if falseTokens.contains s then Cell.boolv false
    else Cell.missing

/-- Value of a digit string read in base 10. -/
def digitsVal (ds : List Char) : Nat :=
  ds.foldl (fun a c => a * 10 + (c.toNat - 48)) 0

/-- Unsigned part of the numeric parse: digits with an optional single dot
and fractional digits, at least one digit overall. -/
def parseUnsigned (cs : List Char) : Option Rat :=
  let intPart := cs.takeWhile Char.isDigit
  match cs.dropWhile Char.isDigit with
  | [] => if intPart.isEmpty then none else some (digitsVal intPart : Nat)
  | '.' :: frac =>
      if frac.all Char.isDigit && (!intPart.isEmpty || !frac.isEmpty) then
        some ((digitsVal intPart : Nat) + (digitsVal frac : Nat) / ((10 : Rat) ^ frac.length))
      else none
  | _ => none

/-- Model of pandas `pd.to_numeric(..., errors='coerce')` applied to a string:
surrounding whitespace tolerated, optional sign, fixed-point decimal notation
(the exponent/infinity forms the library also accepts never occur in this
repository's data and are parsed to `none` here); unparsable input coerces
to `none` (NaN). -/
def pyToNumeric (s : String) : Option Rat :=
  match (pyStrip s).data with
  | '-' :: cs => (parseUnsigned cs).map (fun q => -q)
  | '+' :: cs => parseUnsigned cs
  | cs => parseUnsigned cs

/-- Model of pandas `pd.to_datetime(..., errors='coerce')` followed by
`.date()`, restricted to ISO `YYYY-MM-DD` strings (the only shape the
repository's data uses); anything else coerces to missing. -/
def pyToDate (s : String) : Option (Nat × Nat × Nat) :=
  match s.splitOn "-" with
  | [y, m, d] =>
      if y.data.all Char.isDigit && !y.isEmpty &&
         m.data.all Char.isDigit && !m.isEmpty &&
         d.data.all Char.isDigit && !d.isEmpty &&
         1 ≤ digitsVal m.data && digitsVal m.data ≤ 12 &&
         1 ≤ digitsVal d.data && digitsVal d.data ≤ 31 then
        some (digitsVal y.data, digitsVal m.data, digitsVal d.data)
      else none
  | _ => none

/-- String-level rendition of `str.replace(',', '.')` used on the coordinate
columns (`transform_unidades.py` line 53). -/
def replaceCommaDot (s : String) : String :=
  ⟨s.data.map (fun c => if c == ',' then '.' else c)⟩

/-- The per-cell effect of the coordinate treatment
(`transform_unidades.py` lines 53-54): `astype(str)`, comma-to-dot, then
`to_numeric(errors='coerce')`. -/
def coordCell (c : Cell) : Cell :=
  match pyToNumeric (replaceCommaDot (pyStr c)) with
  | some q => Cell.num q
  | none => Cell.missing

/-- The per-cell effect of `pd.to_numeric(..., errors='coerce')` on a raw
column (`transform_unidades.py` line 63): numbers pass through, strings are
parsed, booleans become 0/1, everything else coerces to missing. -/
def toNumericCell : Cell → Cell
  | Cell.missing => Cell.missing
  | Cell.str s =>
      match pyToNumeric s with
      | some q => Cell.num q
      | none => Cell.missing
  | Cell.num q => Cell.num q
  | Cell.boolv b => Cell.num (if b then 1 else 0)
  | Cell.date _ _ _ => Cell.missing

/-- The per-cell effect of `.astype('Int64')` after `to_numeric`
(`transform_unidades.py` line 63): missing stays missing, integral values are
kept, a non-integral float raises (pandas: "cannot safely cast non-equivalent
float64 to int64"). -/
def int64Cell (c : Cell) : Except String Cell :=
  match toNumericCell c with
  | Cell.missing => Except.ok Cell.missing
  | Cell.num q =>
      if q.den = 1 then Except.ok (Cell.num q)
      else Except.error "cannot safely cast non-equivalent float64 to int64"
  | other => Except.ok other

/-- The per-cell effect of the date treatment
(`transform_unidades.py` lines 58-59). -/
def dateCell : Cell → Cell
  | Cell.missing => Cell.missing
  | Cell.str s =>
      match pyToDate s with
      | some (y, m, d) => Cell.date y m d
      | none => Cell.missing
  | Cell.date y m d => Cell.date y m d
  | _ => Cell.missing

/-- A pandas DataFrame: a header of column names and rows of cells (a cell is
looked up by the index of its column name in the header). -/
structure Frame where
  header : List String
  rows : List (List Cell)
deriving DecidableEq, Repr

/-- `COLUMN_MAP` from `transform_unidades.py` lines 14-33 (identical to
`MAPA_COLUNAS` in `scripts/transform_unidades.py`). -/
def COLUMN_MAP : List (String × String) :=
  [("X", "latitude"),
   ("Y", "longitude"),
   ("NOME", "nome_unidade"),
   ("TIPO_UNIDADE", "tipo"),
   ("ENDERECO", "endereco"),
   ("BAIRRO", "bairro"),
   ("TELEFONE", "telefone"),
   ("EMAIL", "email"),
   ("HORARIO_SEMANA", "horario_semana"),
   ("HORARIO_SABADO", "horario_sabado"),
   ("TIPO_ABC", "tipo_abc"),
   ("CNES", "cnes"),
   ("DATA_INAUGURACAO", "data_inauguracao"),
   ("Flg_Ativo", "ativo"),
   ("OBJECTID", "objectid"),
   ("GlobalID", "globalid"),
   ("CAP", "cap"),
   ("EQUIPES", "equipes")]

/-- Apply a per-cell function to the column named `c`, if present (the effect
of `df[c] = df[c].map(...)`-style statements). -/
def mapColAt (f : Frame) (c : String) (g : Cell → Cell) : Frame :=
  match f.header.findIdx? (· == c) with
  | none => f
  | some i => { f with rows := f.rows.map (fun r => r.set i (g (r.getD i Cell.missing))) }

/-- Assign a constant to column `c` (`df[c] = v`): overwrite when the column
exists, append a new column otherwise. -/
def setCol (f : Frame) (c : String) (v : Cell) : Frame :=
  match f.header.findIdx? (· == c) with
  | some i => { f with rows := f.rows.map (fun r => r.set i v) }
  | none => { header := f.header ++ [c], rows := f.rows.map (fun r => r ++ [v]) }

/-- `df.dropna(subset=[c])`: keep the rows whose cell in column `c` is not
missing. -/
def dropnaSubset (f : Frame) (c : String) : Frame :=
  match f.header.findIdx? (· == c) with
  | none => f
  | some i => { f with rows := f.rows.filter (fun r => !(r.getD i Cell.missing == Cell.missing)) }

/-- `df[cols]`: project (and reorder) to the given columns. -/
def project (f : Frame) (cols : List String) : Frame :=
  { header := cols,
    rows := f.rows.map (fun r =>
      cols.map (fun c =>
        match f.header.findIdx? (· == c) with
        | some i => r.getD i Cell.missing
        | none => Cell.missing)) }

/-- Effectful map over a list in the `Except` monad (used for the column cast
that can raise). -/
def mapME (g : α → Except ε β) : List α → Except ε (List β)
  | [] => Except.ok []
  | a :: as =>
    match g a with
    | Except.error e => Except.error e
    | Except.ok b =>
      match mapME g as with
      | Except.error e => Except.error e
      | Except.ok bs => Except.ok (b :: bs)

/-- Step 1 of `transform_data` (`transform_unidades.py` line 47):
`df.rename(columns=COLUMN_MAP)` — mapped names are replaced, others kept. -/
def step_rename (f : Frame) : Frame :=
  { f with header := f.header.map (fun c => (COLUMN_MAP.lookup c).getD c) }

/-- Body of the coordinate loop (`transform_unidades.py` lines 50-54): treat
column `c` when present. -/
def step_coord_one (c : String) (f : Frame) : Frame :=
  if f.header.contains c then mapColAt f c coordCell else f

/-- Step 2 (`transform_unidades.py` lines 50-54): the coordinate loop over
`['latitude', 'longitude']`. -/
def step_coords (f : Frame) : Frame :=
  step_coord_one "longitude" (step_coord_one "latitude" f)

/-- Step 3 (`transform_unidades.py` lines 57-59): date treatment of
`data_inauguracao` when present. -/
def step_date (f : Frame) : Frame :=
  if f.header.contains "data_inauguracao" then mapColAt f "data_inauguracao" dateCell else f

/-- Step 4 (`transform_unidades.py` lines 62-63):
`pd.to_numeric(df['objectid'], errors='coerce').astype('Int64')` when the
column is present; the `Int64` cast raises on non-integral values. -/
def step_objectid (f : Frame) : Except String Frame :=
  match f.header.findIdx? (· == "objectid") with
  | none => Except.ok f
  | some i =>
    match mapME (fun r =>
        match int64Cell (r.getD i Cell.missing) with
        | Except.error e => Except.error e
        | Except.ok c => Except.ok (r.set i c)) f.rows with
    | Except.error e => Except.error e
    | Except.ok rows => Except.ok { f with rows := rows }

/-- Whether the `Int64` cast succeeds on one cell. -/
def int64CellOk (c : Cell) : Bool :=
  match int64Cell c with
  | Except.ok _ => true
  | Except.error _ => false

/-- Whether step 4 succeeds on the whole frame: the `objectid` column, when
present, holds only values whose numeric coercion is missing or integral. -/
def objectidOk (f : Frame) : Bool :=
  match f.header.findIdx? (· == "objectid") with
  | none => true
  | some i => f.rows.all (fun r => int64CellOk (r.getD i Cell.missing))

/-- Step 5 (`transform_unidades.py` lines 65-67): when `cnes` is present,
strip every non-digit from its string form, then null out the cells that are
(still) literally equal to `"nan"`. -/
def step_cnes (f : Frame) : Frame :=
  if f.header.contains "cnes" then
    mapColAt
      (mapColAt f "cnes" (fun c => Cell.str (strOfChars ((pyStr c).data.filter Char.isDigit))))
      "cnes" (fun c => if c == Cell.str "nan" then Cell.missing else c)
  else f

/-- Step 6 (`transform_unidades.py` lines 70-71): tri-state boolean coercion
of `ativo` when present. -/
def step_ativo (f : Frame) : Frame :=
  if f.header.contains "ativo" then mapColAt f "ativo" to_bool else f

/-- Step 7 (`transform_unidades.py` line 74):
`df['nome_unidade'] = df['nome_unidade'].astype(str).str.title()` — reading a
column that does not exist raises a `KeyError`. -/
def step_nome (f : Frame) : Except String Frame :=
  if f.header.contains "nome_unidade" then
    Except.ok (mapColAt f "nome_unidade" (fun c => Cell.str (pyTitle (pyStr c))))
  else Except.error "KeyError: nome_unidade"

/-- Step 8 (`transform_unidades.py` line 75): `df['municipio'] = 'Rio de Janeiro'`. -/
def step_municipio (f : Frame) : Frame :=
  setCol f "municipio" (Cell.str "Rio de Janeiro")

/-- Step 9 (`transform_unidades.py` line 78): `df.dropna(subset=['nome_unidade'])`. -/
def step_dropna (f : Frame) : Frame :=
  dropnaSubset f "nome_unidade"

/-- Step 10 (`transform_unidades.py` line 79): the canonical columns that are
present in the frame, in `COLUMN_MAP` order. -/
def validCols (f : Frame) : List String :=
  (COLUMN_MAP.map Prod.snd).filter (fun c => f.header.contains c)

/-- `transform_data` from `transform_unidades.py` lines 45-80 (identical in
behaviour to `transformar_dados` in `scripts/transform_unidades.py` lines
66-115): the ten-step cleaning pipeline, failing exactly where the Python
code raises. -/
def transform_data (df : Frame) : Except String Frame :=
  match step_objectid (step_date (step_coords (step_rename df))) with
  | Except.error e => Except.error e
  | Except.ok f =>
    match step_nome (step_ativo (step_cnes f)) with
    | Except.error e => Except.error e
    | Except.ok f =>
      let f := step_dropna (step_municipio f)
      Except.ok (project f (validCols f))

/-- Tokens of a name: Python `name.strip().split()`
(`etl.py` line 25 and 29). -/
def nameParts (n : String) : List (List Char) :=
  splitWs (pyStrip n).data

/-- `anonymize_name` from `etl.py` lines 22-36 with the default
`method="initials"` (identical to `anonimizar_nome` in `scripts/main.py`
lines 33-47 and `initials` in `main.py` lines 22-30; the alternative
`method="hash"` branch of `etl.py` is a SHA-256 digest, out of scope of the
claims and not modelled).  `none` stands for a missing (`NaN`/`None`)
name. -/
def anonymize_name : Option String → Option String
  | none => none
  | some n =>
    match nameParts n with
    | [] => some ""
    | p :: rest =>
      if rest.isEmpty then
        some (strOfChars [pyUpper (p.headD '?'), '.'])
      else
        some (strOfChars
          [pyUpper (p.headD '?'), '.', ' ',
           pyUpper (((p :: rest).getLastD []).headD '?'), '.'])

/-- A row of the regulation-queue frame, for the de-duplication step. -/
abbrev Row := List Cell

/-- Core of `drop_duplicates`: keep the first occurrence of every row. -/
def dedupGo (seen : List Row) : List Row → List Row
  | [] => []
  | r :: rs =>
    if r ∈ seen then dedupGo seen rs
    else r :: dedupGo (r :: seen) rs

/-- Model of pandas `df.drop_duplicates()` as used by the Queue ETL
(`etl.py` line 57, `scripts/main.py` line 81): remove fully identical rows,
keeping each row's first occurrence. -/
def drop_duplicates (rows : List Row) : List Row := dedupGo [] rows

/-- Scheme literals of the connection-URL rewrite. -/
def pgScheme : List Char := "postgres://".data

def pgsqlScheme : List Char := "postgresql://".data

def driverScheme : List Char := "postgresql+psycopg2://".data

/-- Python `s.replace(pat, rep, 1)`: replace the first occurrence of `pat`. -/
def replaceFirst (pat rep : List Char) : List Char → List Char
  | [] => []
  | c :: cs =>
    if pat.isPrefixOf (c :: cs) then rep ++ (c :: cs).drop pat.length
    else c :: replaceFirst pat rep cs

/-- `ensure_sqlalchemy_url` from `etl.py` lines 39-45 (identical to
`ajustar_url_sqlalchemy` in `scripts/main.py` lines 50-58): rewrite a
`postgres://` or `postgresql://` scheme to `postgresql+psycopg2://`. -/
def ensure_sqlalchemy_url (s : String) : String :=
  if pgScheme.isPrefixOf s.data then ⟨replaceFirst pgScheme driverScheme s.data⟩
  else if pgsqlScheme.isPrefixOf s.data then ⟨replaceFirst pgsqlScheme driverScheme s.data⟩
  else s

/-- Statements a pipeline can issue against the relational store. -/
inductive DbAction where
  | createTable
  | truncateTable
  | insertRows
deriving DecidableEq, Repr

/-- How a pipeline run ends. -/
inductive Outcome where
  | completed
  | earlyReturn
  | raised
deriving DecidableEq, Repr

/-- Observable effects of one pipeline run: the table statements issued (in
order), how the run ended, and whether a configuration error was logged. -/
structure RunResult where
  actions : List DbAction
  outcome : Outcome
  loggedConfigError : Bool
deriving DecidableEq, Repr

/-- Control-flow model of `executar_pipeline_etl` (`scripts/main.py` lines
157-189): a missing connection variable is logged as critical and the
function returns before any store action; a missing CSV also returns early
(without a configuration log); otherwise the happy path creates the table
and inserts (store failures on the happy path are abstracted away — the
claim concerns only the runs with the variable absent). -/
def executar_pipeline_etl (dbUrl : Option String) (csvExists : Bool) : RunResult :=
  match dbUrl with
  | none => { actions := [], outcome := Outcome.earlyReturn, loggedConfigError := true }
  | some _ =>
    if csvExists then
      { actions := [DbAction.createTable, DbAction.insertRows],
        outcome := Outcome.completed, loggedConfigError := false }
    else
      { actions := [], outcome := Outcome.earlyReturn, loggedConfigError := false }

/-- Control-flow model of the store half of `run_etl` (`etl.py` lines 48-99):
the CSV is read and transformed first; then a missing connection variable
raises a `RuntimeError` (lines 70-71) — it is not caught by `main` and no
logging call is made — before any engine or table statement; otherwise the
table is created and rows inserted. -/
def run_etl (dbUrl : Option String) : RunResult :=
  match dbUrl with
  | none => { actions := [], outcome := Outcome.raised, loggedConfigError := false }
  | some _ =>
    { actions := [DbAction.createTable, DbAction.insertRows],
      outcome := Outcome.completed, loggedConfigError := false }

/-- Control-flow model of `load_to_db` (`transform_unidades.py` lines 82-97):
there is no explicit check — with the variable absent, `create_engine(None)`
raises before any table statement (the caller catches and prints a generic
load error, not a configuration log); otherwise the table is truncated and
rows inserted. -/
def load_to_db (dbUrl : Option String) : RunResult :=
  match dbUrl with
  | none => { actions := [], outcome := Outcome.raised, loggedConfigError := false }
  | some _ =>
    { actions := [DbAction.truncateTable, DbAction.insertRows],
      outcome := Outcome.completed, loggedConfigError := false }

/-- Control-flow model of `carregar_dados_no_banco`
(`scripts/transform_unidades.py` lines 127-161): a missing connection
variable is logged as an error and a `ValueError` is raised before any store
action; otherwise truncate then insert. -/
def carregar_dados_no_banco (dbUrl : Option String) : RunResult :=
  match dbUrl with
  | none => { actions := [], outcome := Outcome.raised, loggedConfigError := true }
  | some _ =>
    { actions := [DbAction.truncateTable, DbAction.insertRows],
      outcome := Outcome.completed, loggedConfigError := false }

/-!  Theorems settling the claims.  -/

/-- C1: the claimed behaviour ("a row with missing `nome_unidade` is excluded
from the output and the drop counter increases by 1") does not hold: on a
frame whose second row has a missing `NOME`, `astype(str)` in step 7 turns
the missing value into the string `"nan"` (title-cased `"Nan"`) before
`dropna` runs, so `transform_data` keeps both rows — the missing-name row
survives with `nome_unidade = "Nan"` and zero rows are dropped. -/
theorem c1_missing_nome_row_kept :
    transform_data
      { header := ["NOME"],
        rows := [[Cell.str "Hospital Souza"], [Cell.missing]] }
      = Except.ok
          { header := ["nome_unidade"],
            rows := [[Cell.str "Hospital Souza"], [Cell.str "Nan"]] } := by
  rfl

/-- C2: the digit-stripping half of the claim holds
(`"(21) 98888-7766"` becomes `"21988887766"`), but the null-normalisation
half does not: a missing `CNES`, the literal `"nan"`, and the empty string
all come out as the *empty string*, not null — the `== 'nan'` fix-up runs
after the `\D` strip, which has already deleted the letters of `"nan"`, so
it never fires. -/
theorem c2_cnes_digits_only_no_null :
    transform_data
      { header := ["NOME", "CNES"],
        rows := [[Cell.str "upa engenho", Cell.str "(21) 98888-7766"],
                 [Cell.str "clinica nova", Cell.missing],
                 [Cell.str "policlinica", Cell.str "nan"],
                 [Cell.str "hospital geral", Cell.str ""]] }
      = Except.ok
          { header := ["nome_unidade", "cnes"],
            rows := [[Cell.str "Upa Engenho", Cell.str "21988887766"],
                     [Cell.str "Clinica Nova", Cell.str ""],
                     [Cell.str "Policlinica", Cell.str ""],
                     [Cell.str "Hospital Geral", Cell.str ""]] } := by
  rfl

/-- C3 counterexample: `transform_data` is not total over arbitrary frames —
on a frame with no column mapping to `nome_unidade` the unguarded read in
step 7 raises a `KeyError` instead of returning a cleaned dataset. -/
theorem c3_no_nome_column_raises :
    transform_data { header := [], rows := [] }
      = Except.error "KeyError: nome_unidade" := by
  rfl

/-- C9 counterexample: the claim ("each pipeline logs the configuration error
and returns early") is false for `run_etl` (`etl.py`) — with the connection
variable absent it raises an uncaught `RuntimeError` rather than logging the
configuration error and returning early. -/
theorem c9_run_etl_raises_instead_of_returning :
    ¬ ((run_etl none).loggedConfigError = true
        ∧ (run_etl none).outcome = Outcome.earlyReturn) := by
  decide

/-- C9 (amended): with the connection variable absent, no pipeline issues any
table statement; `executar_pipeline_etl` logs the configuration error and
returns early, while `run_etl` raises a `RuntimeError`, `load_to_db` raises
when creating the engine, and `carregar_dados_no_banco` logs then raises. -/
theorem c9_no_table_access_without_db_url :
    (∀ b : Bool,
        (executar_pipeline_etl none b).actions = []
      ∧ (executar_pipeline_etl none b).outcome = Outcome.earlyReturn
      ∧ (executar_pipeline_etl none b).loggedConfigError = true)
    ∧ (run_etl none).actions = []
    ∧ (run_etl none).outcome = Outcome.raised
    ∧ (load_to_db none).actions = []
    ∧ (load_to_db none).outcome = Outcome.raised
    ∧ (carregar_dados_no_banco none).actions = []
    ∧ (carregar_dados_no_banco none).outcome = Outcome.raised := by
  decide

theorem replaceFirst_of_isPrefixOf (pat rep l : List Char) (hne : pat ≠ [])
    (h : pat.isPrefixOf l = true) :
    replaceFirst pat rep l = rep ++ l.drop pat.length := by
  cases l with
  | nil =>
    cases pat with
    | nil => exact absurd rfl hne
    | cons a as => simp [List.isPrefixOf] at h
  | cons c cs => simp [replaceFirst, h]

theorem not_prefix_append_of_le (p a b : List Char) (hlen : p.length ≤ a.length)
    (hnp : ¬ p <+: a) : ¬ p <+: (a ++ b) := by
  intro h
  rw [List.prefix_iff_eq_take, List.take_append_of_le_length hlen] at h
  exact hnp (List.prefix_iff_eq_take.mpr h)

theorem ensure_url_driver_fixed (t : List Char) :
    ensure_sqlalchemy_url ⟨driverScheme ++ t⟩ = ⟨driverScheme ++ t⟩ := by
  have h1 : ¬ (pgScheme.isPrefixOf (driverScheme ++ t) = true) := by
    rw [List.isPrefixOf_iff_prefix]
    exact not_prefix_append_of_le _ _ _ (by decide) (by decide)
  have h2 : ¬ (pgsqlScheme.isPrefixOf (driverScheme ++ t) = true) := by
    rw [List.isPrefixOf_iff_prefix]
    exact not_prefix_append_of_le _ _ _ (by decide) (by decide)
  unfold ensure_sqlalchemy_url
  simp [h1, h2]

/-- C10: the connection-URL scheme rewrite is idempotent — applying
`ensure_sqlalchemy_url` twice to any string yields the same result as
applying it once (an already-rewritten `postgresql+psycopg2://` URL matches
neither of the two scheme tests and is left unchanged). -/
theorem c10_ensure_url_idempotent (u : String) :
    ensure_sqlalchemy_url (ensure_sqlalchemy_url u) = ensure_sqlalchemy_url u := by
  by_cases h1 : pgScheme.isPrefixOf u.data = true
  · obtain ⟨t, ht⟩ := List.isPrefixOf_iff_prefix.mp h1
    have hu : ensure_sqlalchemy_url u = ⟨driverScheme ++ t⟩ := by
      unfold ensure_sqlalchemy_url
      rw [if_pos h1, replaceFirst_of_isPrefixOf _ _ _ (by decide) h1, ← ht,
        List.drop_left]
    rw [hu, ensure_url_driver_fixed]
  · by_cases h2 : pgsqlScheme.isPrefixOf u.data = true
    · obtain ⟨t, ht⟩ := List.isPrefixOf_iff_prefix.mp h2
      have hu : ensure_sqlalchemy_url u = ⟨driverScheme ++ t⟩ := by
        unfold ensure_sqlalchemy_url
        rw [if_neg h1, if_pos h2, replaceFirst_of_isPrefixOf _ _ _ (by decide) h2,
          ← ht, List.drop_left]
      rw [hu, ensure_url_driver_fixed]
    · have hu : ensure_sqlalchemy_url u = u := by
        unfold ensure_sqlalchemy_url
        rw [if_neg h1, if_neg h2]
      rw [hu, hu]

theorem dedupGo_count (r : Row) :
    ∀ (l seen : List Row),
      (dedupGo seen l).count r = if r ∈ l ∧ r ∉ seen then 1 else 0 := by
  intro l
  induction l with
  | nil => intro seen; simp [dedupGo]
  | cons a l ih =>
    intro seen
    by_cases ha : a ∈ seen
    · rw [dedupGo, if_pos ha, ih]
      by_cases hra : r = a
      · subst hra; simp [ha]
      · simp [List.mem_cons, hra]
    · rw [dedupGo, if_neg ha, List.count_cons, ih]
      by_cases hra : r = a
      · subst hra; simp [List.mem_cons, ha]
      · simp [List.mem_cons, hra, Ne.symm hra]

/-- C8: the Queue ETL de-duplication (`df.drop_duplicates()`, `etl.py`
line 57) keeps exactly one copy of every row that occurs in the input —
a row occurring twice (or more) occurs exactly once in the output — and
retains every row: membership in the output coincides with membership in
the input. -/
theorem c8_drop_duplicates_exactly_one (l : List Row) (r : Row) :
    ((drop_duplicates l).count r = if r ∈ l then 1 else 0)
    ∧ (r ∈ drop_duplicates l ↔ r ∈ l) := by
  have hc : (drop_duplicates l).count r = if r ∈ l then 1 else 0 := by
    rw [drop_duplicates, dedupGo_count r l []]
    simp
  refine ⟨hc, ?_, ?_⟩
  · intro h
    have hpos : 0 < (drop_duplicates l).count r := List.count_pos_iff.mpr h
    rw [hc] at hpos
    by_contra hr
    simp [hr] at hpos
  · intro h
    have : 0 < (drop_duplicates l).count r := by rw [hc]; simp [h]
    exact List.count_pos_iff.mp this

theorem replaceCommaDot_self (s : String) :
    replaceCommaDot (replaceCommaDot s) = replaceCommaDot s := by
  unfold replaceCommaDot
  congr 1
  rw [List.map_map]
  apply List.map_congr_left
  intro c _
  by_cases hc : c = ','
  · simp [hc]
  · simp [hc]

/-- C7: the coordinate parse (`astype(str)` + `str.replace(',', '.')` +
`to_numeric(errors='coerce')`, `transform_unidades.py` lines 53-54) gives,
for every string, exactly the same cell as parsing the same string with its
commas already replaced by dots; and whenever the numeric parse fails the
result is the missing value (null). -/
theorem c7_coord_comma_dot (s : String) :
    coordCell (Cell.str s) = coordCell (Cell.str (replaceCommaDot s))
    ∧ (pyToNumeric (replaceCommaDot s) = none → coordCell (Cell.str s) = Cell.missing) := by
  constructor
  · simp [coordCell, pyStr, replaceCommaDot_self]
  · intro h
    simp [coordCell, pyStr, h]

/-- Closed instance of `c7_coord_comma_dot`: the comma form of the spec's
example coordinate parses like its dot form, and an unparsable string maps
to null. -/
theorem c7_coord_comma_dot_witness :
    coordCell (Cell.str "-43,2075") = coordCell (Cell.str "-43.2075")
    ∧ coordCell (Cell.str "abc") = Cell.missing :=
  ⟨(c7_coord_comma_dot "-43,2075").1, (c7_coord_comma_dot "abc").2 (by decide)⟩

/-- C6: `anonymize_name` maps "João Silva Oliveira" to "J. O." and "Maria"
to "M.", and for every name, every character of the output is a period, a
space, the uppercased first character of the first token, or the uppercased
first character of the last token — no further character of any name token
appears in the output. -/
theorem c6_anonymize_initials :
    anonymize_name (some "João Silva Oliveira") = some "J. O."
    ∧ anonymize_name (some "Maria") = some "M."
    ∧ ∀ n : String,
        (((anonymize_name (some n)).getD "").data.all (fun c =>
          c == '.' || c == ' '
          || c == pyUpper (((nameParts n).headD []).headD '?')
          || c == pyUpper (((nameParts n).getLastD []).headD '?'))) = true := by
  refine ⟨by decide, by decide, ?_⟩
  intro n
  cases hp : nameParts n with
  | nil => simp [anonymize_name, hp]
  | cons p rest =>
    cases rest with
    | nil => simp [anonymize_name, hp, strOfChars]
    | cons q rest' => simp [anonymize_name, hp, strOfChars]

theorem lowerPairs_not_space :
    ∀ p ∈ lowerPairs, pyIsSpace p.1 = false ∧ pyIsSpace p.2 = false := by
  decide

theorem pyLower_isSpace (c : Char) : pyIsSpace (pyLower c) = pyIsSpace c := by
  unfold pyLower
  cases hf : lowerPairs.find? (fun p => p.1 == c) with
  | none => rfl
  | some pr =>
    have hm := List.mem_of_find?_eq_some hf
    have hc : pr.1 = c := by simpa using List.find?_some hf
    have h2 := lowerPairs_not_space pr hm
    simp [← hc, h2.1, h2.2]

theorem dropWhile_map_pyLower (l : List Char) :
    (l.map pyLower).dropWhile pyIsSpace = (l.dropWhile pyIsSpace).map pyLower := by
  induction l with
  | nil => rfl
  | cons c cs ih =>
    simp only [List.map_cons, List.dropWhile_cons, pyLower_isSpace]
    by_cases h : pyIsSpace c = true
    · simp [h, ih]
    · simp [h]

theorem strip_lower_comm_list (d : List Char) :
    pyStripList (d.map pyLower) = (pyStripList d).map pyLower := by
  unfold pyStripList
  rw [dropWhile_map_pyLower, ← List.map_reverse, dropWhile_map_pyLower,
    ← List.map_reverse]

theorem strip_lower_comm (s : String) :
    pyStrip (pyLowerStr s) = pyLowerStr (pyStrip s) := by
  show (⟨pyStripList (s.data.map pyLower)⟩ : String) = ⟨(pyStripList s.data).map pyLower⟩
  rw [strip_lower_comm_list]

theorem token_contains_iff (l : List String) (a : String) :
    l.contains a = true ↔ a ∈ l := by
  simp [List.contains, List.elem_iff]

theorem trueTokens_not_false : ∀ t ∈ trueTokens, t ∉ falseTokens := by decide

theorem falseTokens_not_true : ∀ t ∈ falseTokens, t ∉ trueTokens := by decide

/-- C5: `to_bool` returns `True` exactly when the lowercased stripped string
form of its input is one of the accepted truthy tokens, `False` exactly when
it is one of the accepted falsy tokens, and `None` (missing) otherwise — in
particular for a missing value, the empty string, whitespace-only input, and
the literal `"nan"`, whose normalized forms belong to neither token set. -/
theorem c5_to_bool_tri_state (v : Cell) :
    (to_bool v = Cell.boolv true ↔ pyLowerStr (pyStrip (pyStr v)) ∈ trueTokens)
    ∧ (to_bool v = Cell.boolv false ↔ pyLowerStr (pyStrip (pyStr v)) ∈ falseTokens)
    ∧ (to_bool v = Cell.missing ↔
        pyLowerStr (pyStrip (pyStr v)) ∉ trueTokens
        ∧ pyLowerStr (pyStrip (pyStr v)) ∉ falseTokens) := by
  by_cases hg : (v == Cell.missing || pyStrip (pyStr v) == ""
      || pyLowerStr (pyStr v) == "nan") = true
  · have hmiss : to_bool v = Cell.missing := by rw [to_bool, if_pos hg]
    have hnan : pyLowerStr (pyStrip (pyStr v)) = "nan"
        ∨ pyLowerStr (pyStrip (pyStr v)) = "" := by
      simp only [Bool.or_eq_true, beq_iff_eq, or_assoc] at hg
      rcases hg with hv | hv | hv
      · subst hv; left; rfl
      · rw [hv]; right; rfl
      · rw [← strip_lower_comm, hv]; left; rfl
    have hnot : pyLowerStr (pyStrip (pyStr v)) ∉ trueTokens
        ∧ pyLowerStr (pyStrip (pyStr v)) ∉ falseTokens := by
      rcases hnan with h | h <;> rw [h] <;> exact ⟨by decide, by decide⟩
    rw [hmiss]
    simp [hnot.1, hnot.2]
  · have ht : to_bool v =
        (if trueTokens.contains (pyLowerStr (pyStrip (pyStr v))) then Cell.boolv true
         else if falseTokens.contains (pyLowerStr (pyStrip (pyStr v))) then Cell.boolv false
         else Cell.missing) := by
      rw [to_bool, if_neg hg]
    by_cases h1 : pyLowerStr (pyStrip (pyStr v)) ∈ trueTokens
    · have hb : trueTokens.contains (pyLowerStr (pyStrip (pyStr v))) = true :=
        (token_contains_iff _ _).mpr h1
      have h2 : pyLowerStr (pyStrip (pyStr v)) ∉ falseTokens :=
        trueTokens_not_false _ h1
      rw [ht, if_pos hb]
      simp [h1, h2]
    · have hb : ¬ (trueTokens.contains (pyLowerStr (pyStrip (pyStr v))) = true) :=
        fun h => h1 ((token_contains_iff _ _).mp h)
      by_cases h2 : pyLowerStr (pyStrip (pyStr v)) ∈ falseTokens
      · have hb2 : falseTokens.contains (pyLowerStr (pyStrip (pyStr v))) = true :=
          (token_contains_iff _ _).mpr h2
        rw [ht, if_neg hb, if_pos hb2]
        simp [h1, h2]
      · have hb2 : ¬ (falseTokens.contains (pyLowerStr (pyStrip (pyStr v))) = true) :=
          fun h => h2 ((token_contains_iff _ _).mp h)
        rw [ht, if_neg hb, if_neg hb2]
        simp [h1, h2]

theorem mapColAt_header (f : Frame) (c : String) (g : Cell → Cell) :
    (mapColAt f c g).header = f.header := by
  unfold mapColAt
  cases f.header.findIdx? (· == c) <;> rfl

theorem step_coord_one_header (c : String) (f : Frame) :
    (step_coord_one c f).header = f.header := by
  unfold step_coord_one
  split <;> simp [mapColAt_header]

theorem step_coords_header (f : Frame) : (step_coords f).header = f.header := by
  unfold step_coords
  rw [step_coord_one_header, step_coord_one_header]

theorem step_date_header (f : Frame) : (step_date f).header = f.header := by
  unfold step_date
  split <;> simp [mapColAt_header]

theorem step_cnes_header (f : Frame) : (step_cnes f).header = f.header := by
  unfold step_cnes
  split <;> simp [mapColAt_header]

theorem step_ativo_header (f : Frame) : (step_ativo f).header = f.header := by
  unfold step_ativo
  split <;> simp [mapColAt_header]

theorem mapME_ok_of_forall {α β : Type} (g : α → Except String β) (l : List α)
    (h : ∀ a ∈ l, ∃ b, g a = Except.ok b) :
    ∃ l', mapME g l = Except.ok l' := by
  induction l with
  | nil => exact ⟨[], rfl⟩
  | cons a as ih =>
    obtain ⟨b, hb⟩ := h a (List.mem_cons_self a as)
    obtain ⟨l', hl⟩ := ih (fun x hx => h x (List.mem_cons_of_mem a hx))
    exact ⟨b :: l', by simp [mapME, hb, hl]⟩

theorem step_objectid_ok (f : Frame) (h : objectidOk f = true) :
    ∃ g, step_objectid f = Except.ok g ∧ g.header = f.header := by
  unfold objectidOk at h
  unfold step_objectid
  cases hi : f.header.findIdx? (· == "objectid") with
  | none => exact ⟨f, rfl, rfl⟩
  | some i =>
    rw [hi] at h
    have hall := List.all_eq_true.mp h
    obtain ⟨rows, hrows⟩ := mapME_ok_of_forall
      (fun r =>
        match int64Cell (r.getD i Cell.missing) with
        | Except.error e => Except.error e
        | Except.ok c => Except.ok (r.set i c)) f.rows
      (by
        intro r hr
        have hro := hall r hr
        unfold int64CellOk at hro
        cases hc : int64Cell (r.getD i Cell.missing) with
        | error e => rw [hc] at hro; simp at hro
        | ok c => exact ⟨r.set i c, by dsimp only; rw [hc]⟩)
    exact ⟨{ f with rows := rows }, by dsimp only; rw [hrows], rfl⟩

/-- C3 (amended): `transform_data` succeeds on every frame that, after the
column renaming, has a `nome_unidade` column and whose `objectid` column (if
present, after the coordinate and date steps) holds only values coercing to
an integral number or missing; a frame without a `nome_unidade` column (and
likewise a non-integral `objectid` value) makes it raise instead. -/
theorem c3_transform_total_when_nome_present (df : Frame)
    (hnome : (step_rename df).header.contains "nome_unidade" = true)
    (hobj : objectidOk (step_date (step_coords (step_rename df))) = true) :
    ∃ g, transform_data df = Except.ok g := by
  obtain ⟨m, hm, hmh⟩ := step_objectid_ok _ hobj
  have hnome2 : (step_ativo (step_cnes m)).header.contains "nome_unidade" = true := by
    rw [step_ativo_header, step_cnes_header, hmh, step_date_header,
      step_coords_header]
    exact hnome
  have hn : step_nome (step_ativo (step_cnes m))
      = Except.ok (mapColAt (step_ativo (step_cnes m)) "nome_unidade"
          (fun c => Cell.str (pyTitle (pyStr c)))) := by
    unfold step_nome
    rw [if_pos hnome2]
  unfold transform_data
  rw [hm]
  dsimp only
  rw [hn]
  exact ⟨_, rfl⟩

/-- Closed instance of `c3_transform_total_when_nome_present` at a concrete
frame with a `NOME` column and an integral `OBJECTID`. -/
theorem c3_transform_total_witness :
    ∃ g, transform_data
      { header := ["NOME", "OBJECTID"],
        rows := [[Cell.str "upa centro", Cell.str "12"]] } = Except.ok g :=
  c3_transform_total_when_nome_present _ (by decide) (by decide)

/-- C4: the claim fails — `municipio` is assigned in step 8 but the final
projection keeps only columns drawn from `COLUMN_MAP`, which does not list
`municipio`, so no output frame of `transform_data` ever contains the
municipality column. -/
theorem c4_municipio_not_in_output (df f : Frame)
    (h : transform_data df = Except.ok f) : "municipio" ∉ f.header := by
  unfold transform_data at h
  cases h1 : step_objectid (step_date (step_coords (step_rename df))) with
  | error e => rw [h1] at h; simp at h
  | ok m =>
    rw [h1] at h
    dsimp only at h
    cases h2 : step_nome (step_ativo (step_cnes m)) with
    | error e => rw [h2] at h; simp at h
    | ok g =>
      rw [h2] at h
      dsimp only at h
      injection h with h
      intro hmem
      rw [← h] at hmem
      have hin : "municipio" ∈ COLUMN_MAP.map Prod.snd := by
        have := hmem
        unfold project validCols at this
        exact (List.mem_filter.mp this).1
      exact absurd hin (by decide)

/-- Closed instance of `c4_municipio_not_in_output` at a concrete frame. -/
theorem c4_municipio_witness :
    "municipio" ∉ (Frame.mk ["nome_unidade"] [[Cell.str "Upa Sul"]]).header :=
  c4_municipio_not_in_output
    { header := ["NOME"], rows := [[Cell.str "upa sul"]] } _ (by rfl)

end HospitalETL
